import Mathlib

/-!
Verification of the SNMP check (`checks.d/snmp.py`): a shallow embedding of
its result-interpretation and metric-emission pipeline, followed by theorems
settling the specification claims.

Modelling conventions:
* A pysnmp managed value (`RawValue`) is either one of the two invalid-reply
  sentinels (`noSuchInstance`, `noSuchObject`) or a typed value carrying its
  wire-type class name (`__class__.__name__`) and its integer payload
  (`int(snmp_value)`).
* Log calls are modelled as accumulated lists of strings; exact log text is
  abbreviated (format placeholders, newlines and apostrophes dropped), since
  no claim depends on the precise characters of a log line.
* Python exceptions are modelled with `Except` / explicit error fields;
  Python tuple indexing `t[i]` (which admits negative indices and raises
  `IndexError` out of range) is modelled by `pyGet`.
* Python `dict` is modelled as an insertion-ordered association list;
  `defaultdict(dict)` as a total function defaulting to the empty list.
-/

/-- A table row index: the tuple of index components attached by
`getMibSymbol` to a table OID (components rendered as integers). -/
abbrev RowIndex := List Int

/-- The list `SNMP_COUNTERS` from snmp.py line 17: wire-type class names classified
as monotonic counters. -/
def SNMP_COUNTERS : List String :=
  ["Counter32", "Counter64", "ZeroBasedCounter64"]

/-- The list `SNMP_GAUGES` from snmp.py line 18: wire-type class names classified as
gauges. -/
def SNMP_GAUGES : List String :=
  ["Gauge32", "CounterBasedGauge64"]

/-- A value returned by the transport layer for one OID: either one of the
two invalid-reply sentinels of `pysnmp.smi.exval`, or a managed value with
its wire-type class name and integer payload. -/
inductive RawValue where
  | noSuchInstance : RawValue
  | noSuchObject : RawValue
  | value (typeName : String) (payload : Int) : RawValue
deriving DecidableEq, Repr

/-- Embedding of `reply_invalid` (snmp.py lines 20-22): the value is one of the two
invalid-reply sentinels. -/
def reply_invalid : RawValue → Bool
  | .noSuchInstance => true
  | .noSuchObject => true
  | .value _ _ => false

/-- The class name `snmp_value.__class__.__name__` (snmp.py line 190). The sentinel
singletons of pysnmp have class names NoSuchInstance / NoSuchObject. -/
def className : RawValue → String
  | .noSuchInstance => "NoSuchInstance"
  | .noSuchObject => "NoSuchObject"
  | .value t _ => t

/-- The conversion `int(snmp_value)` (snmp.py lines 193, 198). Only reached for non
sentinel values (`int()` of a sentinel would raise; `submit_metric` guards
with `reply_invalid` first, so the sentinel branch is unreachable there). -/
def intValue : RawValue → Int
  | .noSuchInstance => 0
  | .noSuchObject => 0
  | .value _ p => p

/-- The rendering `str(value)` as used when a column value is interpolated into a tag
(snmp.py line 164). -/
def rawValueStr : RawValue → String
  | .noSuchInstance => "No Such Instance currently exists at this OID"
  | .noSuchObject => "No Such Object currently exists at this OID"
  | .value _ p => toString p

/-- The kind of metric handed to the aggregator: `self.rate` or
`self.gauge`. -/
inductive MetricKind where
  | rate : MetricKind
  | gauge : MetricKind
deriving DecidableEq, Repr

/-- One call into the metrics backend: `self.rate(name, value, tags)` or
`self.gauge(name, value, tags)`. -/
structure Submission where
  name : String
  value : Int
  tags : List String
  kind : MetricKind
deriving DecidableEq, Repr

/-- Embedding of `SnmpCheck.submit_metric` (snmp.py lines 174-201): returns the list of
backend submissions made (zero or one) and the list of warnings logged. -/
def submit_metric (name : String) (snmp_value : RawValue)
    (tags : List String) : List Submission × List String :=
  if reply_invalid snmp_value then
    -- Metrics not present in the queried object
    ([], ["No such Mib available: " ++ name])
  else
    let metric_name := "snmp." ++ name
    let logged := "metric: " ++ metric_name ++ " value: " ++
      rawValueStr snmp_value
    let snmp_class := className snmp_value
    if snmp_class ∈ SNMP_COUNTERS then
      ([⟨name, intValue snmp_value, tags, .rate⟩], [logged])
    else if snmp_class ∈ SNMP_GAUGES then
      ([⟨name, intValue snmp_value, tags, .gauge⟩], [logged])
    else
      ([], [logged, "Unsupported metric type " ++ snmp_class])

/-- The classification order question of the spec: the same classifier with
the gauge allow-list consulted before the counter allow-list, to compare
with `submit_metric`. -/
def submit_metric_gauges_first (name : String) (snmp_value : RawValue)
    (tags : List String) : List Submission × List String :=
  if reply_invalid snmp_value then
    ([], ["No such Mib available: " ++ name])
  else
    let metric_name := "snmp." ++ name
    let logged := "metric: " ++ metric_name ++ " value: " ++
      rawValueStr snmp_value
    let snmp_class := className snmp_value
    if snmp_class ∈ SNMP_GAUGES then
      ([⟨name, intValue snmp_value, tags, .gauge⟩], [logged])
    else if snmp_class ∈ SNMP_COUNTERS then
      ([⟨name, intValue snmp_value, tags, .rate⟩], [logged])
    else
      ([], [logged, "Unsupported metric type " ++ snmp_class])

/-- Python tuple/list indexing `l[i]`: a negative index counts from the
end; an index out of `[-len, len)` raises `IndexError` (here `none`). -/
def pyGet {α : Type} (l : List α) (i : Int) : Option α :=
  if 0 ≤ i then l.get? i.toNat
  else if (-i) ≤ (l.length : Int) then l.get? (l.length - (-i).toNat)
  else none

/-- One record of a `metric_tags` entry in the configuration: a tag name
plus optionally an `index` position and optionally a `column` symbol. -/
structure MetricTagSpec where
  tag : String
  index : Option Int := none
  column : Option String := none
deriving DecidableEq, Repr

/-- One record of the `metrics` list in the configuration (a MetricSpec):
the dict keys MIB, table, symbol, symbols, metric_tags. -/
structure MetricSpec where
  mib : Option String := none
  table : Option String := none
  symbol : Option String := none
  symbols : List String := []
  metric_tags : List MetricTagSpec := []
deriving DecidableEq, Repr

/-- A device instance from the configuration: `ip_address`, `tags`,
`metrics` (the fields the emission pipeline reads). -/
structure Instance where
  ip_address : String
  tags : List String := []
  metrics : List MetricSpec := []

/-- The `ResultSet`: `results[metric-name][index-tuple] = value`, a
`defaultdict(dict)` modelled as a total function defaulting to the empty
association list. -/
def ResultSet := String → List (RowIndex × RawValue)

/-- Insertion into a Python dict: overwrite in place if the key exists,
else append at the end. -/
def dictInsert (rows : List (RowIndex × RawValue)) (idx : RowIndex)
    (v : RawValue) : List (RowIndex × RawValue) :=
  match rows with
  | [] => [(idx, v)]
  | (k, w) :: rest =>
    if k = idx then (k, v) :: rest else (k, w) :: dictInsert rest idx v

/-- Dict lookup `rows[idx]` returning `none` for a `KeyError`. -/
def lookupRow (rows : List (RowIndex × RawValue)) (idx : RowIndex) :
    Option RawValue :=
  (rows.find? (fun kv => kv.1 = idx)).map (fun kv => kv.2)

/-- The insertion `results[metric][indexes] = value` on the defaultdict (snmp.py line
123). -/
def updateResults (r : ResultSet) (metric : String) (indexes : RowIndex)
    (v : RawValue) : ResultSet :=
  fun s => if s = metric then dictInsert (r metric) indexes v else r s

/-- One resolved var-bind: the `(module, metric, indexes)` triple delivered
by `result_oid.getMibSymbol()` together with the value (the module
component is not read by the aggregation loop and is omitted). -/
structure VarBind where
  metric : String
  indexes : RowIndex
  value : RawValue

/-- The transport layer reply consumed by `check_table`: the
`(errorIndication, errorStatus, errorIndex, varBinds)` tuple of
`cmd_generator.nextCmd`. An empty `errorIndication` string stands for the
falsy `None`; `errorStatus` 0 is falsy; `errorStatusText` is its
`prettyPrint()`. -/
structure SnmpResponse where
  errorIndication : String := ""
  errorStatus : Nat := 0
  errorStatusText : String := ""
  varBinds : List (List VarBind) := []

/-- The aggregation loop of `check_table` (snmp.py lines 118-123). -/
def aggregate (varBinds : List (List VarBind)) : ResultSet :=
  varBinds.foldl
    (fun acc tableRow =>
      tableRow.foldl
        (fun acc2 vb => updateResults acc2 vb.metric vb.indexes vb.value)
        acc)
    (fun _ => [])

/-- Embedding of `SnmpCheck.check_table` (snmp.py lines 97-125) given the transport
reply: raises on a truthy error indication or error status, otherwise
builds the `ResultSet`. -/
def check_table (inst : Instance) (resp : SnmpResponse) :
    Except String ResultSet :=
  if resp.errorIndication ≠ "" then
    .error (resp.errorIndication ++ " for instance " ++ inst.ip_address)
  else if resp.errorStatus ≠ 0 then
    .error (resp.errorStatusText ++ " for instance " ++ inst.ip_address)
  else
    .ok (aggregate resp.varBinds)

/-- An exception escaping `report_table_metrics`: an `IndexError` from an
index-tag position out of Python range, or a `KeyError` from a column-tag
lookup miss (the missed column symbol and row index). -/
inductive RError where
  | indexError : RError
  | keyError (column : String) (idx : RowIndex) : RError
deriving DecidableEq, Repr

/-- The observable outcome of running (a part of) the reporting loop: the
backend submissions made so far, the warnings logged so far, and the
exception that aborted it, if any. Submissions made before an exception are
kept: the aggregator calls already happened. -/
structure ReportResult where
  submissions : List Submission
  warnings : List String
  err : Option RError
deriving DecidableEq, Repr

/-- Sequential execution of one Python loop with exception propagation:
run `f` on each element in order; the first exception aborts the rest,
keeping the submissions and warnings accumulated so far. -/
def runList {α : Type} (f : α → ReportResult) : List α → ReportResult
  | [] => ⟨[], [], none⟩
  | x :: xs =>
    let r := f x
    match r.err with
    | some _ => r
    | none =>
      let rest := runList f xs
      ⟨r.submissions ++ rest.submissions, r.warnings ++ rest.warnings,
        rest.err⟩

/-- The index-tag comprehension of snmp.py line 163: for each collected
`(tag, index)` pair, format `tag:index_tuple[position - 1]` with Python
indexing; an out-of-range position raises `IndexError`. -/
def formatIndexTags (idx : RowIndex) :
    List (String × Int) → Except RError (List String)
  | [] => .ok []
  | (t, n) :: rest =>
    match pyGet idx (n - 1) with
    | none => .error .indexError
    | some c =>
      match formatIndexTags idx rest with
      | .error e => .error e
      | .ok l => .ok ((t ++ ":" ++ toString c) :: l)

/-- The column-tag comprehension of snmp.py line 164: for each collected
`(tag, column)` pair, format `tag:results[column][index]`; a missing row
under the column raises `KeyError`. -/
def formatColumnTags (results : ResultSet) (idx : RowIndex) :
    List (String × String) → Except RError (List String)
  | [] => .ok []
  | (t, c) :: rest =>
    match lookupRow (results c) idx with
    | none => .error (.keyError c idx)
    | some v =>
      match formatColumnTags results idx rest with
      | .error e => .error e
      | .ok l => .ok ((t ++ ":" ++ rawValueStr v) :: l)

/-- The `(tag_key, metric_tag.get(index))` pairs collected at snmp.py
lines 156-157, in `metric_tags` order. -/
def indexTagsOf (mts : List MetricTagSpec) : List (String × Int) :=
  mts.filterMap (fun mt => mt.index.map (fun i => (mt.tag, i)))

/-- The `(tag_key, metric_tag.get(column))` pairs collected at snmp.py
lines 158-159, in `metric_tags` order. -/
def columnTagsOf (mts : List MetricTagSpec) : List (String × String) :=
  mts.filterMap (fun mt => mt.column.map (fun c => (mt.tag, c)))

/-- The tag list `tag_for_this_index` for one row (snmp.py lines 163-164): base tags,
then index tags, then column tags. -/
def rowTags (tags : List String) (itags : List (String × Int))
    (ctags : List (String × String)) (results : ResultSet)
    (idx : RowIndex) : Except RError (List String) :=
  match formatIndexTags idx itags with
  | .error e => .error e
  | .ok il =>
    match formatColumnTags results idx ctags with
    | .error e => .error e
    | .ok cl => .ok (tags ++ il ++ cl)

/-- The body of the per-row loop of a table metric (snmp.py lines
162-166): resolve the tags, then `submit_metric`. -/
def reportRow (tags : List String) (itags : List (String × Int))
    (ctags : List (String × String)) (results : ResultSet)
    (value_to_collect : String) (row : RowIndex × RawValue) :
    ReportResult :=
  match rowTags tags itags ctags results row.1 with
  | .error e => ⟨[], [], some e⟩
  | .ok t =>
    let (subs, warns) := submit_metric value_to_collect row.2 t
    ⟨subs, warns, none⟩

/-- The `table` branch of `report_table_metrics` for one metric spec
(snmp.py lines 151-166). -/
def reportTableMetric (tags : List String) (results : ResultSet)
    (m : MetricSpec) : ReportResult :=
  let itags := indexTagsOf m.metric_tags
  let ctags := columnTagsOf m.metric_tags
  runList
    (fun value_to_collect =>
      runList (reportRow tags itags ctags results value_to_collect)
        (results value_to_collect))
    m.symbols

/-- The `symbol` branch of `report_table_metrics` for one metric spec
(snmp.py lines 168-171): one `submit_metric` per entry of the scalar
result dict, with only the base tags. -/
def reportScalarRows (name : String) (tags : List String)
    (rows : List (RowIndex × RawValue)) : ReportResult :=
  runList
    (fun row =>
      let (subs, warns) := submit_metric name row.2 tags
      ⟨subs, warns, none⟩)
    rows

/-- The per-metric dispatch of `report_table_metrics` (snmp.py lines
150-171): the `table` branch, else the `symbol` branch, else nothing. -/
def reportMetric (tags : List String) (results : ResultSet)
    (m : MetricSpec) : ReportResult :=
  if m.table.isSome then reportTableMetric tags results m
  else
    match m.symbol with
    | some name => reportScalarRows name tags (results name)
    | none => ⟨[], [], none⟩

/-- Embedding of `SnmpCheck.report_table_metrics` (snmp.py lines 146-171). -/
def report_table_metrics (inst : Instance) (results : ResultSet) :
    ReportResult :=
  let tags := inst.tags ++ ["snmp_device:" ++ inst.ip_address]
  runList (reportMetric tags results) inst.metrics

/-- A query target: the `(MIB, symbol-or-table)` pair handed to
`cmdgen.MibVariable` (snmp.py line 137). -/
abbrev QueryTarget := String × String

/-- A constructor oracle for `cmdgen.MibVariable(mib, to_query)`: external
pysnmp code that either yields a target or raises (with some exception
text). -/
abbrev MibBuild := String → String → Except String QueryTarget

/-- The outcome of the query-building loop of `check` (snmp.py lines
130-141): the `table_oids` accumulated, the warnings logged, and the fatal
configuration exception if one was raised. -/
structure BuildResult where
  oids : List QueryTarget
  warnings : List String
  fatal : Option String
deriving DecidableEq, Repr

/-- The warning of snmp.py line 139 for a metric spec that could not be
turned into a MIB object (exception text appended). -/
def buildWarning (e : String) : String :=
  "Cannot generate MIB object for variable, exception: " ++ e

/-- The query-building loop of `SnmpCheck.check` (snmp.py lines 130-141):
for each metric with a MIB, try `assert table or symbol` then build the
MIB variable, catching any exception with a warning; a metric without a
MIB raises an unsupported-format exception that aborts the whole check. -/
def buildOids (build : MibBuild) : List MetricSpec → BuildResult
  | [] => ⟨[], [], none⟩
  | m :: rest =>
    match m.mib with
    | none => ⟨[], [], some "Unsupported metrics format in config file"⟩
    | some mib =>
      let (tgt, warns) :=
        match m.table <|> m.symbol with
        | none =>
          -- the assert fails; the AssertionError is caught at line 138
          ((none : Option QueryTarget), [buildWarning "AssertionError"])
        | some to_query =>
          match build mib to_query with
          | .ok t => (some t, ([] : List String))
          | .error e => (none, [buildWarning e])
      let r := buildOids build rest
      ⟨tgt.toList ++ r.oids, warns ++ r.warnings, r.fatal⟩

/-- An error aborting a whole check run: the configuration exception of
snmp.py line 141, the transport/protocol exception of lines 113/116, or an
exception escaping `report_table_metrics`. -/
inductive CheckError where
  | config (msg : String) : CheckError
  | transport (msg : String) : CheckError
  | report (e : RError) : CheckError
deriving DecidableEq, Repr

/-- The observable outcome of one `SnmpCheck.check` cycle: submissions
made, warnings logged, and the exception that aborted it, if any. -/
structure CheckOutcome where
  submissions : List Submission
  warnings : List String
  error : Option CheckError
deriving DecidableEq, Repr

/-- Embedding of `SnmpCheck.check` (snmp.py lines 127-144), with the MIB-variable
constructor and the transport reply supplied as oracles: build the query
targets, run `check_table`, then `report_table_metrics`. -/
def check (inst : Instance) (build : MibBuild) (resp : SnmpResponse) :
    CheckOutcome :=
  let b := buildOids build inst.metrics
  match b.fatal with
  | some e => ⟨[], b.warnings, some (.config e)⟩
  | none =>
    match check_table inst resp with
    | .error e => ⟨[], b.warnings, some (.transport e)⟩
    | .ok results =>
      let r := report_table_metrics inst results
      ⟨r.submissions, b.warnings ++ r.warnings, r.err.map .report⟩

/-- Success test for `Except` (used to state hypotheses decidably). -/
def exOk {ε α : Type} : Except ε α → Bool
  | .ok _ => true
  | .error _ => false

/-- A value `submit_metric` classifies: not a sentinel and with a wire-type
name on one of the two allow-lists. -/
def Classifiable (v : RawValue) : Prop :=
  reply_invalid v = false ∧
    (className v ∈ SNMP_COUNTERS ∨ className v ∈ SNMP_GAUGES)

instance (v : RawValue) : Decidable (Classifiable v) := by
  unfold Classifiable; infer_instance

theorem counters_gauges_disjoint :
    ∀ s, s ∈ SNMP_COUNTERS → s ∈ SNMP_GAUGES → False := by
  intro s hs
  fin_cases hs <;> decide

theorem exOk_iff {ε α : Type} (x : Except ε α) :
    exOk x = true ↔ ∃ a, x = .ok a := by
  cases x <;> simp [exOk]

theorem runList_nil {α : Type} (f : α → ReportResult) :
    runList f [] = ⟨[], [], none⟩ := rfl

theorem runList_cons {α : Type} (f : α → ReportResult) (x : α)
    (xs : List α) :
    runList f (x :: xs) =
      match (f x).err with
      | some _ => f x
      | none =>
        ⟨(f x).submissions ++ (runList f xs).submissions,
         (f x).warnings ++ (runList f xs).warnings,
         (runList f xs).err⟩ := by
  simp only [runList]

theorem runList_ok_flatten {α : Type} (f : α → ReportResult) (l : List α)
    (h : ∀ x ∈ l, (f x).err = none) :
    runList f l =
      ⟨(l.map fun x => (f x).submissions).flatten,
       (l.map fun x => (f x).warnings).flatten, none⟩ := by
  induction l with
  | nil => rfl
  | cons x xs ih =>
    have hx : (f x).err = none := h x (List.mem_cons_self x xs)
    have ihh := ih (fun y hy => h y (List.mem_cons_of_mem x hy))
    rw [runList_cons, hx, ihh]
    simp

theorem runList_err_none_mem {α : Type} (f : α → ReportResult)
    (l : List α) (h : (runList f l).err = none) :
    ∀ x ∈ l, (f x).err = none := by
  induction l with
  | nil => intro x hx; cases hx
  | cons y ys ih =>
    intro x hx
    rw [runList_cons] at h
    rcases he : (f y).err with _ | e
    · rw [he] at h
      rcases List.mem_cons.mp hx with rfl | hx'
      · exact he
      · exact ih h x hx'
    · rw [he] at h
      simp only [he] at h
      exact absurd h (by simp)

theorem runList_err_some_mem {α : Type} (f : α → ReportResult)
    (l : List α) (e : RError) (h : (runList f l).err = some e) :
    ∃ x ∈ l, (f x).err = some e := by
  induction l with
  | nil => exact absurd h (by simp [runList_nil])
  | cons y ys ih =>
    rw [runList_cons] at h
    rcases he : (f y).err with _ | e'
    · rw [he] at h
      obtain ⟨x, hx, hfx⟩ := ih h
      exact ⟨x, List.mem_cons_of_mem y hx, hfx⟩
    · rw [he] at h
      simp only [he] at h
      exact ⟨y, List.mem_cons_self y ys, by rw [he, ← h]⟩

theorem runList_err_none_of {α : Type} (f : α → ReportResult)
    (l : List α) (h : ∀ x ∈ l, (f x).err = none) :
    (runList f l).err = none := by
  rw [runList_ok_flatten f l h]

theorem submit_metric_classifiable (n : String) (v : RawValue)
    (tg : List String) (h : Classifiable v) :
    ∃ k, submit_metric n v tg =
      ([⟨n, intValue v, tg, k⟩],
       ["metric: " ++ ("snmp." ++ n) ++ " value: " ++ rawValueStr v]) := by
  obtain ⟨hr, hm⟩ := h
  rcases hm with hc | hg
  · exact ⟨.rate, by simp [submit_metric, hr, hc]⟩
  · have hnc : className v ∉ SNMP_COUNTERS := fun hcc =>
      counters_gauges_disjoint _ hcc hg
    exact ⟨.gauge, by simp [submit_metric, hr, hnc, hg]⟩

theorem formatIndexTags_ok_of (idx : RowIndex)
    (itags : List (String × Int))
    (h : ∀ p ∈ itags, pyGet idx (p.2 - 1) ≠ none) :
    formatIndexTags idx itags =
      .ok (itags.map fun p =>
        p.1 ++ ":" ++ toString ((pyGet idx (p.2 - 1)).getD 0)) := by
  induction itags with
  | nil => rfl
  | cons p rest ih =>
    obtain ⟨c, hc⟩ := Option.ne_none_iff_exists'.mp
      (h p (List.mem_cons_self p rest))
    have ihh := ih (fun q hq => h q (List.mem_cons_of_mem p hq))
    obtain ⟨t, n⟩ := p
    simp only [formatIndexTags, hc, ihh]
    simp [hc]

theorem formatIndexTags_error_elim (idx : RowIndex)
    (itags : List (String × Int)) (e : RError)
    (h : formatIndexTags idx itags = .error e) :
    e = .indexError ∧ ∃ p ∈ itags, pyGet idx (p.2 - 1) = none := by
  induction itags with
  | nil => exact absurd h (by simp [formatIndexTags])
  | cons p rest ih =>
    obtain ⟨t, n⟩ := p
    rcases hg : pyGet idx (n - 1) with _ | c
    · simp only [formatIndexTags, hg] at h
      cases h
      exact ⟨rfl, ⟨(t, n), List.mem_cons_self _ _, hg⟩⟩
    · rcases hr : formatIndexTags idx rest with e' | l
      · simp only [formatIndexTags, hg, hr] at h
        cases h
        obtain ⟨he, p', hp', hpg⟩ := ih hr
        exact ⟨he, p', List.mem_cons_of_mem _ hp', hpg⟩
      · simp [formatIndexTags, hg, hr] at h

theorem formatColumnTags_error_elim (results : ResultSet)
    (idx : RowIndex) (ctags : List (String × String)) (e : RError)
    (h : formatColumnTags results idx ctags = .error e) :
    ∃ p ∈ ctags, e = .keyError p.2 idx ∧
      lookupRow (results p.2) idx = none := by
  induction ctags with
  | nil => exact absurd h (by simp [formatColumnTags])
  | cons p rest ih =>
    obtain ⟨t, c⟩ := p
    rcases hg : lookupRow (results c) idx with _ | v
    · simp only [formatColumnTags, hg] at h
      cases h
      exact ⟨(t, c), List.mem_cons_self _ _, rfl, hg⟩
    · rcases hr : formatColumnTags results idx rest with e' | l
      · simp only [formatColumnTags, hg, hr] at h
        cases h
        obtain ⟨p', hp', he, hpg⟩ := ih hr
        exact ⟨p', List.mem_cons_of_mem _ hp', he, hpg⟩
      · simp [formatColumnTags, hg, hr] at h

theorem formatColumnTags_ok_lookup (results : ResultSet)
    (idx : RowIndex) (ctags : List (String × String)) (l : List String)
    (h : formatColumnTags results idx ctags = .ok l) :
    ∀ p ∈ ctags, lookupRow (results p.2) idx ≠ none := by
  induction ctags generalizing l with
  | nil => intro p hp; cases hp
  | cons q rest ih =>
    intro p hp
    obtain ⟨t, c⟩ := q
    rcases hg : lookupRow (results c) idx with _ | v
    · simp [formatColumnTags, hg] at h
    · rcases hr : formatColumnTags results idx rest with e' | l'
      · simp [formatColumnTags, hg, hr] at h
      · rcases List.mem_cons.mp hp with rfl | hp'
        · simp only ; rw [hg]; simp
        · exact ih l' hr p hp'

theorem reportRow_ok (tags : List String) (itags : List (String × Int))
    (ctags : List (String × String)) (results : ResultSet) (s : String)
    (row : RowIndex × RawValue) (tl : List String)
    (h : rowTags tags itags ctags results row.1 = .ok tl) :
    reportRow tags itags ctags results s row =
      ⟨(submit_metric s row.2 tl).1, (submit_metric s row.2 tl).2,
        none⟩ := by
  simp [reportRow, h]

theorem reportRow_err_none_elim (tags : List String)
    (itags : List (String × Int)) (ctags : List (String × String))
    (results : ResultSet) (s : String) (row : RowIndex × RawValue)
    (h : (reportRow tags itags ctags results s row).err = none) :
    ∃ tl, rowTags tags itags ctags results row.1 = .ok tl := by
  rcases hrt : rowTags tags itags ctags results row.1 with e | tl
  · rw [reportRow, hrt] at h
    cases h
  · exact ⟨tl, rfl⟩

theorem reportRow_err_some_elim (tags : List String)
    (itags : List (String × Int)) (ctags : List (String × String))
    (results : ResultSet) (s : String) (row : RowIndex × RawValue)
    (e : RError)
    (h : (reportRow tags itags ctags results s row).err = some e) :
    rowTags tags itags ctags results row.1 = .error e := by
  rcases hrt : rowTags tags itags ctags results row.1 with e' | tl
  · have hee : e' = e := by
      rw [reportRow, hrt] at h
      simpa using h
    rw [hee]
  · rw [reportRow_ok tags itags ctags results s row tl hrt] at h
    cases h

theorem rowTags_ok_lookup (tags : List String)
    (itags : List (String × Int)) (ctags : List (String × String))
    (results : ResultSet) (idx : RowIndex) (tl : List String)
    (h : rowTags tags itags ctags results idx = .ok tl) :
    ∀ p ∈ ctags, lookupRow (results p.2) idx ≠ none := by
  rcases hi : formatIndexTags idx itags with e | il
  · rw [rowTags, hi] at h
    cases h
  · rcases hc : formatColumnTags results idx ctags with e | cl
    · rw [rowTags, hi, hc] at h
      cases h
    · exact formatColumnTags_ok_lookup results idx ctags cl hc

theorem rowTags_error_elim (tags : List String)
    (itags : List (String × Int)) (ctags : List (String × String))
    (results : ResultSet) (idx : RowIndex) (e : RError)
    (h : rowTags tags itags ctags results idx = .error e) :
    (e = .indexError ∧ ∃ p ∈ itags, pyGet idx (p.2 - 1) = none) ∨
      (∃ p ∈ ctags, e = .keyError p.2 idx) := by
  rcases hi : formatIndexTags idx itags with e' | il
  · rw [rowTags, hi] at h
    cases h
    exact Or.inl (formatIndexTags_error_elim idx itags e hi)
  · rcases hc : formatColumnTags results idx ctags with e' | cl
    · rw [rowTags, hi, hc] at h
      cases h
      obtain ⟨p, hp, he, _⟩ := formatColumnTags_error_elim results idx ctags e hc
      exact Or.inr ⟨p, hp, he⟩
    · rw [rowTags, hi, hc] at h
      cases h

theorem reportScalarRows_err_none (name : String) (tags : List String)
    (rows : List (RowIndex × RawValue)) :
    (reportScalarRows name tags rows).err = none := by
  apply runList_err_none_of
  intro x _
  rfl

theorem reportMetric_table (tags : List String) (results : ResultSet)
    (m : MetricSpec) (htab : m.table.isSome) :
    reportMetric tags results m = reportTableMetric tags results m := by
  simp [reportMetric, htab]

theorem reportMetric_not_table_err (tags : List String)
    (results : ResultSet) (m : MetricSpec) (htab : m.table = none) :
    (reportMetric tags results m).err = none := by
  rcases hs : m.symbol with _ | name
  · simp [reportMetric, htab, hs]
  · simp [reportMetric, htab, hs, reportScalarRows_err_none]

theorem buildOids_cons_mib (build : MibBuild) (m : MetricSpec)
    (rest : List MetricSpec) (mib : String) (hm : m.mib = some mib) :
    buildOids build (m :: rest) =
      (let (tgt, warns) :=
        match m.table <|> m.symbol with
        | none => ((none : Option QueryTarget), [buildWarning "AssertionError"])
        | some to_query =>
          match build mib to_query with
          | .ok t => (some t, ([] : List String))
          | .error e => (none, [buildWarning e])
       ⟨tgt.toList ++ (buildOids build rest).oids,
        warns ++ (buildOids build rest).warnings,
        (buildOids build rest).fatal⟩) := by
  simp only [buildOids, hm]

theorem buildOids_append (build : MibBuild) (pre post : List MetricSpec)
    (h : (buildOids build pre).fatal = none) :
    buildOids build (pre ++ post) =
      ⟨(buildOids build pre).oids ++ (buildOids build post).oids,
       (buildOids build pre).warnings ++ (buildOids build post).warnings,
       (buildOids build post).fatal⟩ := by
  induction pre with
  | nil => simp [buildOids]
  | cons m pre ih =>
    rcases hm : m.mib with _ | mib
    · simp only [buildOids, hm] at h
      cases h
    · have hpre : (buildOids build pre).fatal = none := by
        rw [buildOids_cons_mib build m pre mib hm] at h
        rcases ht : m.table <|> m.symbol with _ | q
        · simp only [ht] at h
          exact h
        · rcases hb : build mib q with e | t <;> simp only [ht, hb] at h <;>
            exact h
      have ihh := ih hpre
      rw [List.cons_append,
        buildOids_cons_mib build m (pre ++ post) mib hm,
        buildOids_cons_mib build m pre mib hm, ihh]
      rcases ht : m.table <|> m.symbol with _ | q
      · simp [ht]
      · rcases hb : build mib q with e | t <;> simp [ht, hb]

/-- C1: for every non-sentinel RawValue, `submit_metric` classifies by the
declared wire-type class name: a name in `SNMP_COUNTERS` yields exactly one
rate submission with the integer-converted value, a name in `SNMP_GAUGES`
exactly one gauge submission, and any other name yields no submission and
logs a warning naming the unsupported type. -/
theorem C1_submit_metric_classification (name t : String) (p : Int)
    (tags : List String) :
    (t ∈ SNMP_COUNTERS →
      submit_metric name (.value t p) tags =
        ([⟨name, p, tags, .rate⟩],
         ["metric: " ++ ("snmp." ++ name) ++ " value: " ++ toString p])) ∧
    (t ∈ SNMP_GAUGES →
      submit_metric name (.value t p) tags =
        ([⟨name, p, tags, .gauge⟩],
         ["metric: " ++ ("snmp." ++ name) ++ " value: " ++ toString p])) ∧
    (t ∉ SNMP_COUNTERS → t ∉ SNMP_GAUGES →
      submit_metric name (.value t p) tags =
        ([],
         ["metric: " ++ ("snmp." ++ name) ++ " value: " ++ toString p,
          "Unsupported metric type " ++ t])) := by
  refine ⟨fun hc => ?_, fun hg => ?_, fun hnc hng => ?_⟩
  · simp [submit_metric, reply_invalid, className, intValue, rawValueStr,
      hc]
  · have hnc : t ∉ SNMP_COUNTERS := fun hcc =>
      counters_gauges_disjoint _ hcc hg
    simp [submit_metric, reply_invalid, className, intValue, rawValueStr,
      hnc, hg]
  · simp [submit_metric, reply_invalid, className, intValue, rawValueStr,
      hnc, hng]

/-- Witness for C1 at a concrete counter-typed value. -/
theorem C1_witness :
    "Counter32" ∈ SNMP_COUNTERS ∧
    submit_metric "ifInOctets" (.value "Counter32" 500) ["a:b"] =
      ([⟨"ifInOctets", 500, ["a:b"], .rate⟩],
       ["metric: " ++ ("snmp." ++ "ifInOctets") ++ " value: " ++
         toString (500 : Int)]) :=
  ⟨by decide,
   (C1_submit_metric_classification "ifInOctets" "Counter32" 500
     ["a:b"]).1 (by decide)⟩

/-- C2: for both invalid-reply sentinels, `submit_metric` logs a warning
and produces no submission, and the scalar reporting loop never raises, so
processing of the remaining entries continues. -/
theorem C2_sentinel_no_submission (name : String) (tags : List String) :
    submit_metric name .noSuchInstance tags =
      ([], ["No such Mib available: " ++ name]) ∧
    submit_metric name .noSuchObject tags =
      ([], ["No such Mib available: " ++ name]) ∧
    ∀ rows, (reportScalarRows name tags rows).err = none :=
  ⟨rfl, rfl, fun rows => reportScalarRows_err_none name tags rows⟩

/-- C9: the counter and gauge allow-lists share no wire-type class name,
and consequently consulting the gauge list before the counter list gives
the same classifier as `submit_metric`. -/
theorem C9_allow_lists_disjoint :
    SNMP_COUNTERS.filter (fun s => SNMP_GAUGES.contains s) = [] ∧
    ∀ (name : String) (v : RawValue) (tags : List String),
      submit_metric_gauges_first name v tags =
        submit_metric name v tags := by
  constructor
  · decide
  · intro name v tags
    cases v with
    | noSuchInstance => rfl
    | noSuchObject => rfl
    | value t p =>
      by_cases hc : t ∈ SNMP_COUNTERS
      · have hg : t ∉ SNMP_GAUGES := fun hgg =>
          counters_gauges_disjoint _ hc hgg
        simp [submit_metric, submit_metric_gauges_first, reply_invalid,
          className, hc, hg]
      · by_cases hg : t ∈ SNMP_GAUGES
        · simp [submit_metric, submit_metric_gauges_first, reply_invalid,
            className, hc, hg]
        · simp [submit_metric, submit_metric_gauges_first, reply_invalid,
            className, hc, hg]

/-- C3: when the query-build loop did not abort, a non-empty error
indication or a non-zero error status from the transport layer makes the
whole cycle fail with a transport exception whose message contains the
device IP address and the underlying error text, with zero submissions
(`report_table_metrics` is never reached). -/
theorem C3_transport_error_aborts (inst : Instance) (build : MibBuild)
    (resp : SnmpResponse)
    (hb : (buildOids build inst.metrics).fatal = none) :
    (resp.errorIndication ≠ "" →
      check inst build resp =
        ⟨[], (buildOids build inst.metrics).warnings,
         some (.transport (resp.errorIndication ++ " for instance " ++
           inst.ip_address))⟩) ∧
    (resp.errorIndication = "" → resp.errorStatus ≠ 0 →
      check inst build resp =
        ⟨[], (buildOids build inst.metrics).warnings,
         some (.transport (resp.errorStatusText ++ " for instance " ++
           inst.ip_address))⟩) := by
  constructor
  · intro hi
    simp [check, hb, check_table, hi]
  · intro hi hs
    simp [check, hb, check_table, hi, hs]

/-- Witness for C3 at a concrete timed-out device. -/
theorem C3_witness :
    (buildOids (fun m s => .ok (m, s))
      (Instance.metrics ⟨"1.2.3.4", [], []⟩)).fatal = none ∧
    ("timeout" : String) ≠ "" ∧
    check ⟨"1.2.3.4", [], []⟩ (fun m s => .ok (m, s))
        { errorIndication := "timeout" } =
      ⟨[], [], some (.transport ("timeout" ++ " for instance " ++
        "1.2.3.4"))⟩ := by
  refine ⟨rfl, by decide, ?_⟩
  exact (C3_transport_error_aborts ⟨"1.2.3.4", [], []⟩
    (fun m s => .ok (m, s)) { errorIndication := "timeout" } rfl).1
    (by decide)

/-- C4 counterexample: a metrics configuration whose only MetricSpec has a
MIB but neither a table identifier nor a scalar symbol does not make the
check run fail: the spec is skipped with a warning (the failed assertion is
caught by the per-metric handler) and the cycle completes with no error. -/
theorem C4_counterexample :
    check { ip_address := "7.7.7.7",
            metrics := [{ mib := some "IF-MIB" }] }
        (fun m s => .ok (m, s)) {} =
      ⟨[], [buildWarning "AssertionError"], none⟩ := by
  rfl

/-- C4 amended: a MetricSpec with a MIB field but neither table nor symbol
is skipped with a warning and the remaining specs are still processed; only
a MetricSpec lacking the MIB field aborts the whole check with the fatal
unsupported-format configuration error. -/
theorem C4_amended (build : MibBuild) (m : MetricSpec)
    (rest : List MetricSpec) (mib : String) (hmib : m.mib = some mib)
    (htab : m.table = none) (hsym : m.symbol = none) :
    buildOids build (m :: rest) =
      ⟨(buildOids build rest).oids,
       buildWarning "AssertionError" :: (buildOids build rest).warnings,
       (buildOids build rest).fatal⟩ ∧
    (∀ (m' : MetricSpec), m'.mib = none → ∀ rest',
      buildOids build (m' :: rest') =
        ⟨[], [], some "Unsupported metrics format in config file"⟩) ∧
    (∀ (inst : Instance) (resp : SnmpResponse) (f : String),
      (buildOids build inst.metrics).fatal = some f →
      check inst build resp =
        ⟨[], (buildOids build inst.metrics).warnings,
         some (.config f)⟩) := by
  refine ⟨?_, ?_, ?_⟩
  · rw [buildOids_cons_mib build m rest mib hmib]
    simp [htab, hsym]
  · intro m' hm' rest'
    simp [buildOids, hm']
  · intro inst resp f hf
    simp [check, hf]

/-- Witness for C4 amended at a concrete spec with a MIB only. -/
theorem C4_amended_witness :
    (MetricSpec.mib { mib := some "IF-MIB" } = some "IF-MIB") ∧
    (MetricSpec.table { mib := some "IF-MIB" : MetricSpec } = none) ∧
    (MetricSpec.symbol { mib := some "IF-MIB" : MetricSpec } = none) ∧
    buildOids (fun m s => .ok (m, s)) [{ mib := some "IF-MIB" }] =
      ⟨[], [buildWarning "AssertionError"], none⟩ := by
  refine ⟨rfl, rfl, rfl, ?_⟩
  have h := (C4_amended (fun m s => .ok (m, s)) { mib := some "IF-MIB" }
    [] "IF-MIB" rfl rfl rfl).1
  rw [h]
  rfl

/-- C5 (scenario A at the failing input): for the scalar spec
`sysUpTime` with a Counter32 reply of 12345 the check makes exactly one
rate submission with value 12345 and the base-plus-device tags, but the
submitted metric name is the bare "sysUpTime": the "snmp."-prefixed name
is computed and logged yet `self.rate` is called with `name`, so the
submission name is not "snmp.sysUpTime" as the spec states. -/
theorem C5_scenario_a_name_unprefixed :
    check { ip_address := "1.2.3.4", tags := ["base:tag"],
            metrics := [{ mib := some "RFC1213-MIB",
                          symbol := some "sysUpTime" }] }
        (fun m s => .ok (m, s))
        { varBinds := [[⟨"sysUpTime", [0], .value "Counter32" 12345⟩]] } =
      ⟨[⟨"sysUpTime", 12345, ["base:tag", "snmp_device:1.2.3.4"], .rate⟩],
       ["metric: snmp.sysUpTime value: 12345"], none⟩ ∧
    ("sysUpTime" : String) ≠ "snmp.sysUpTime" := by
  constructor
  · decide
  · decide

/-- C7 (at the failing inputs): an index-based tag rule with declared
position 0 on row index (5, 7) silently wraps around to the last index
component (Python `index[-1]`), producing the tag "iface:7"; and a
declared position 3 on the same two-component row index raises an
`IndexError` that aborts the reporting loop. Neither is a defined explicit
fail-the-row / fail-the-check action. -/
theorem C7_out_of_range_position :
    (report_table_metrics
        { ip_address := "9.9.9.9",
          metrics := [{ mib := some "IF-MIB", table := some "ifTable",
                        symbols := ["ifInOctets"],
                        metric_tags := [{ tag := "iface",
                                          index := some 0 }] }] }
        (fun s => if s = "ifInOctets" then
          [([5, 7], .value "Counter32" 1)] else []) =
      ⟨[⟨"ifInOctets", 1, ["snmp_device:9.9.9.9", "iface:7"], .rate⟩],
       ["metric: snmp.ifInOctets value: 1"], none⟩) ∧
    (report_table_metrics
        { ip_address := "9.9.9.9",
          metrics := [{ mib := some "IF-MIB", table := some "ifTable",
                        symbols := ["ifInOctets"],
                        metric_tags := [{ tag := "iface",
                                          index := some 3 }] }] }
        (fun s => if s = "ifInOctets" then
          [([5, 7], .value "Counter32" 1)] else []) =
      ⟨[], [], some .indexError⟩) := by
  constructor
  · decide
  · decide

/-- C8: a MetricSpec with a MIB whose query-target construction raises is
skipped with a single warning; the specs before and after it still
contribute their query targets, and the loop outcome is otherwise that of
the remaining specs, so the cycle proceeds for them. -/
theorem C8_build_error_skips_one (build : MibBuild)
    (pre post : List MetricSpec) (m : MetricSpec) (mib q e : String)
    (hm : m.mib = some mib)
    (hq : (m.table <|> m.symbol) = some q)
    (he : build mib q = .error e)
    (hpre : (buildOids build pre).fatal = none) :
    buildOids build (pre ++ m :: post) =
      ⟨(buildOids build pre).oids ++ (buildOids build post).oids,
       (buildOids build pre).warnings ++
         (buildWarning e :: (buildOids build post).warnings),
       (buildOids build post).fatal⟩ := by
  rw [buildOids_append build pre (m :: post) hpre,
    buildOids_cons_mib build m post mib hm]
  simp [hq, he]

/-- Witness for C8 at a concrete failing constructor. -/
theorem C8_witness :
    (MetricSpec.mib { mib := some "A", symbol := some "x" } = some "A") ∧
    ((MetricSpec.table { mib := some "A", symbol := some "x" } <|>
      MetricSpec.symbol { mib := some "A", symbol := some "x" }) =
        some "x") ∧
    ((fun (_ _ : String) => (.error "boom" : Except String QueryTarget))
      "A" "x" = .error "boom") ∧
    (buildOids (fun _ _ => .error "boom") [] ).fatal = none ∧
    buildOids (fun _ _ => .error "boom")
        ([] ++ { mib := some "A", symbol := some "x" } :: []) =
      ⟨[], [buildWarning "boom"], none⟩ := by
  refine ⟨rfl, rfl, rfl, rfl, ?_⟩
  rw [C8_build_error_skips_one (fun _ _ => .error "boom") [] []
    { mib := some "A", symbol := some "x" } "A" "x" "boom" rfl rfl rfl
    rfl]
  rfl

/-- A 1-based position inside the bounds of the index tuple resolves
without an IndexError. -/
theorem pyGet_in_range {α : Type} (l : List α) (n : Int) (h1 : 1 ≤ n)
    (h2 : n ≤ (l.length : Int)) : pyGet l (n - 1) ≠ none := by
  unfold pyGet
  rw [if_pos (by omega)]
  intro hn
  rw [List.get?_eq_none] at hn
  omega

/-- C6: for a table MetricSpec whose values are all classifiable and whose
tag rules all resolve, one submission is made per RowIndex entry per
declared value-symbol (count = number of RowIndex entries), each row's tag
list is the base tags plus "tag:<component at declared position - 1>" for
every in-range index-based rule, and scenario B produces two rate
submissions tagged interface:1 and interface:2. -/
theorem C6_table_row_submissions (tags : List String)
    (results : ResultSet) (m : MetricSpec) (htab : m.table.isSome)
    (hclass : ∀ s ∈ m.symbols, ∀ row ∈ results s, Classifiable row.2)
    (hok : ∀ s ∈ m.symbols, ∀ row ∈ results s,
      exOk (rowTags tags (indexTagsOf m.metric_tags)
        (columnTagsOf m.metric_tags) results row.1) = true) :
    (reportMetric tags results m).err = none ∧
    (reportMetric tags results m).submissions.length =
      (m.symbols.map fun s => (results s).length).sum ∧
    (∀ (idx : RowIndex) (itags : List (String × Int)),
      (∀ p ∈ itags, 1 ≤ p.2 ∧ p.2 ≤ (idx.length : Int)) →
      rowTags tags itags [] results idx =
        .ok (tags ++ itags.map fun p =>
          p.1 ++ ":" ++ toString ((pyGet idx (p.2 - 1)).getD 0))) ∧
    report_table_metrics
        { ip_address := "1.2.3.4", tags := ["base:tag"],
          metrics := [{ mib := some "IF-MIB", table := some "ifTable",
                        symbols := ["ifInOctets"],
                        metric_tags := [{ tag := "interface",
                                          index := some 1 }] }] }
        (fun s => if s = "ifInOctets" then
          [([1], .value "Counter32" 500), ([2], .value "Counter32" 900)]
          else []) =
      ⟨[⟨"ifInOctets", 500,
          ["base:tag", "snmp_device:1.2.3.4", "interface:1"], .rate⟩,
        ⟨"ifInOctets", 900,
          ["base:tag", "snmp_device:1.2.3.4", "interface:2"], .rate⟩],
       ["metric: snmp.ifInOctets value: 500",
        "metric: snmp.ifInOctets value: 900"], none⟩ := by
  have hrow : ∀ s ∈ m.symbols, ∀ row ∈ results s,
      (reportRow tags (indexTagsOf m.metric_tags)
        (columnTagsOf m.metric_tags) results s row).err = none ∧
      (reportRow tags (indexTagsOf m.metric_tags)
        (columnTagsOf m.metric_tags) results s row).submissions.length
        = 1 := by
    intro s hs row hrw
    obtain ⟨tl, htl⟩ := (exOk_iff _).mp (hok s hs row hrw)
    obtain ⟨k, hk⟩ :=
      submit_metric_classifiable s row.2 tl (hclass s hs row hrw)
    rw [reportRow_ok tags _ _ results s row tl htl]
    exact ⟨rfl, by simp [hk]⟩
  have hsym : ∀ s ∈ m.symbols,
      (runList (reportRow tags (indexTagsOf m.metric_tags)
        (columnTagsOf m.metric_tags) results s) (results s)).err = none ∧
      (runList (reportRow tags (indexTagsOf m.metric_tags)
        (columnTagsOf m.metric_tags) results s)
          (results s)).submissions.length = (results s).length := by
    intro s hs
    rw [runList_ok_flatten _ _ (fun row hr => (hrow s hs row hr).1)]
    refine ⟨rfl, ?_⟩
    show (((results s).map fun row =>
      (reportRow tags (indexTagsOf m.metric_tags)
        (columnTagsOf m.metric_tags) results s row).submissions).flatten).length
        = (results s).length
    rw [List.length_flatten, List.map_map]
    have hone : (results s).map
        (List.length ∘ fun row => (reportRow tags
          (indexTagsOf m.metric_tags) (columnTagsOf m.metric_tags)
          results s row).submissions) = (results s).map fun _ => 1 :=
      List.map_eq_map_iff.mpr (fun row hr => (hrow s hs row hr).2)
    rw [hone]
    simp
  have hmain := runList_ok_flatten
    (fun s => runList (reportRow tags (indexTagsOf m.metric_tags)
      (columnTagsOf m.metric_tags) results s) (results s)) m.symbols
    (fun s hs => (hsym s hs).1)
  refine ⟨?_, ?_, ?_, ?_⟩
  · rw [reportMetric_table tags results m htab]
    show (reportTableMetric tags results m).err = none
    simp only [reportTableMetric]
    rw [hmain]
  · rw [reportMetric_table tags results m htab]
    simp only [reportTableMetric]
    rw [hmain]
    show ((m.symbols.map fun s =>
      (runList (reportRow tags (indexTagsOf m.metric_tags)
        (columnTagsOf m.metric_tags) results s)
          (results s)).submissions).flatten).length
        = (m.symbols.map fun s => (results s).length).sum
    rw [List.length_flatten, List.map_map]
    exact congrArg List.sum (List.map_eq_map_iff.mpr
      (fun s hs => (hsym s hs).2))
  · intro idx itags hrange
    have hfi := formatIndexTags_ok_of idx itags
      (fun p hp => pyGet_in_range idx p.2 (hrange p hp).1 (hrange p hp).2)
    simp only [rowTags, hfi, formatColumnTags]
    simp
  · decide


/-- The table MetricSpec of end-to-end scenario B. -/
def scenarioBMetric : MetricSpec :=
  { mib := some "IF-MIB", table := some "ifTable",
    symbols := ["ifInOctets"],
    metric_tags := [{ tag := "interface", index := some 1 }] }

/-- The ResultSet of end-to-end scenario B: rows (1,) and (2,) under
ifInOctets. -/
def scenarioBResults : ResultSet :=
  fun s => if s = "ifInOctets" then
    [([1], .value "Counter32" 500), ([2], .value "Counter32" 900)]
  else []

/-- Witness for C6 at the scenario B inputs. -/
theorem C6_witness :
    scenarioBMetric.table.isSome = true ∧
    (∀ s ∈ scenarioBMetric.symbols, ∀ row ∈ scenarioBResults s,
      Classifiable row.2) ∧
    (∀ s ∈ scenarioBMetric.symbols, ∀ row ∈ scenarioBResults s,
      exOk (rowTags ["base:tag", "snmp_device:1.2.3.4"]
        (indexTagsOf scenarioBMetric.metric_tags)
        (columnTagsOf scenarioBMetric.metric_tags) scenarioBResults
        row.1) = true) ∧
    (reportMetric ["base:tag", "snmp_device:1.2.3.4"] scenarioBResults
      scenarioBMetric).submissions.length =
      (scenarioBMetric.symbols.map fun s =>
        (scenarioBResults s).length).sum := by
  refine ⟨by decide, by decide, by decide, ?_⟩
  exact (C6_table_row_submissions ["base:tag", "snmp_device:1.2.3.4"]
    scenarioBResults scenarioBMetric (by decide) (by decide)
    (by decide)).2.1

/-- A table MetricSpec with a column-based tag rule referencing ifDescr. -/
def columnMissMetric : MetricSpec :=
  { mib := some "IF-MIB", table := some "ifTable",
    symbols := ["ifInOctets"],
    metric_tags := [{ tag := "descr", column := some "ifDescr" }] }

/-- A device instance whose only metric is `columnMissMetric`. -/
def columnMissInstance : Instance :=
  { ip_address := "8.8.8.8", metrics := [columnMissMetric] }

/-- A ResultSet where ifDescr has no entry for row (2,) although
ifInOctets does. -/
def columnMissResults : ResultSet :=
  fun s =>
    if s = "ifInOctets" then
      [([1], .value "Counter32" 500), ([2], .value "Counter32" 900)]
    else if s = "ifDescr" then [([1], .value "OctetString" 42)]
    else []

/-- C10: whenever a table MetricSpec has a column-based tag rule whose
column symbol lacks an entry for a RowIndex present under a declared
value-symbol (and no index-tag rule is out of range anywhere), the
reporting loop aborts with a KeyError; at the concrete two-row input the
first row's rate submission has already been made and is kept, so the
cycle is not atomic. -/
theorem C10_column_miss_keyerror (inst : Instance) (results : ResultSet)
    (m : MetricSpec) (hm : m ∈ inst.metrics) (htab : m.table.isSome)
    (t c : String) (hc : (t, c) ∈ columnTagsOf m.metric_tags)
    (s : String) (hs : s ∈ m.symbols)
    (row : RowIndex × RawValue) (hrow : row ∈ results s)
    (hmiss : lookupRow (results c) row.1 = none)
    (hidx : ∀ m' ∈ inst.metrics, m'.table.isSome = true →
      ∀ s' ∈ m'.symbols, ∀ row' ∈ results s',
      ∀ p ∈ indexTagsOf m'.metric_tags,
      pyGet row'.1 (p.2 - 1) ≠ none) :
    (∃ c' i', (report_table_metrics inst results).err =
      some (.keyError c' i')) ∧
    report_table_metrics columnMissInstance columnMissResults =
      ⟨[⟨"ifInOctets", 500, ["snmp_device:8.8.8.8", "descr:42"], .rate⟩],
       ["metric: snmp.ifInOctets value: 500"],
       some (.keyError "ifDescr" [2])⟩ := by
  constructor
  · have hne : (report_table_metrics inst results).err ≠ none := by
      intro h0
      simp only [report_table_metrics] at h0
      have h1 := runList_err_none_mem _ _ h0 m hm
      rw [reportMetric_table _ _ _ htab] at h1
      simp only [reportTableMetric] at h1
      have h2 := runList_err_none_mem _ _ h1 s hs
      have h3 := runList_err_none_mem _ _ h2 row hrow
      obtain ⟨tl, htl⟩ := reportRow_err_none_elim _ _ _ _ _ _ h3
      exact rowTags_ok_lookup _ _ _ _ _ _ htl (t, c) hc hmiss
    rcases he : (report_table_metrics inst results).err with _ | e
    · exact absurd he hne
    · simp only [report_table_metrics] at he
      obtain ⟨m', hm', hme⟩ := runList_err_some_mem _ _ e he
      by_cases htab' : m'.table.isSome
      · rw [reportMetric_table _ _ _ htab'] at hme
        simp only [reportTableMetric] at hme
        obtain ⟨s', hs', hse⟩ := runList_err_some_mem _ _ e hme
        obtain ⟨row', hrow', hre⟩ := runList_err_some_mem _ _ e hse
        have hrt := reportRow_err_some_elim _ _ _ _ _ _ e hre
        rcases rowTags_error_elim _ _ _ _ _ e hrt with
          ⟨heidx, p, hp, hpg⟩ | ⟨p, hp, hek⟩
        · exact absurd hpg (hidx m' hm' htab' s' hs' row' hrow' p hp)
        · exact ⟨p.2, row'.1, by rw [hek]⟩
      · have hnone := reportMetric_not_table_err
          (inst.tags ++ ["snmp_device:" ++ inst.ip_address]) results m'
          (Option.not_isSome_iff_eq_none.mp htab')
        rw [hme] at hnone
        cases hnone
  · decide

/-- Witness for C10 at the concrete column-miss input. -/
theorem C10_witness :
    columnMissMetric ∈ columnMissInstance.metrics ∧
    columnMissMetric.table.isSome = true ∧
    ("descr", "ifDescr") ∈ columnTagsOf columnMissMetric.metric_tags ∧
    "ifInOctets" ∈ columnMissMetric.symbols ∧
    (([2], RawValue.value "Counter32" 900) ∈
      columnMissResults "ifInOctets") ∧
    lookupRow (columnMissResults "ifDescr") [2] = none ∧
    (∀ m' ∈ columnMissInstance.metrics, m'.table.isSome = true →
      ∀ s' ∈ m'.symbols, ∀ row' ∈ columnMissResults s',
      ∀ p ∈ indexTagsOf m'.metric_tags,
      pyGet row'.1 (p.2 - 1) ≠ none) ∧
    ∃ c' i',
      (report_table_metrics columnMissInstance columnMissResults).err =
        some (.keyError c' i') := by
  refine ⟨by decide, by decide, by decide, by decide, by decide,
    by decide, by decide, ?_⟩
  exact (C10_column_miss_keyerror columnMissInstance columnMissResults
    columnMissMetric (by decide) (by decide) "descr" "ifDescr"
    (by decide) "ifInOctets" (by decide)
    ([2], RawValue.value "Counter32" 900) (by decide) (by decide)
    (by decide)).1
